import Mathlib

/-!
# Verification of the py-arrakis cookbook and the SDK surface it uses

The repository consists of `examples/cookbook.py` (an example script driving
the py-arrakis SDK against a remote Arrakis REST server) and a packaging stub.
The SDK itself (`SandboxManager` / `Sandbox`) is not part of the repository
sources; its behaviour is modelled from the specification.

The embedding is a writer-plus-exception monad over an abstract server oracle:
a computation produces a trace of observable events (SDK method invocations,
HTTP requests, sleeps, printed lines) together with either a value or a raised
Python-level exception.  The cookbook functions are translated statement by
statement from `examples/cookbook.py`.
-/

set_option autoImplicit false

/-- A minimal JSON value type, enough for the request/response bodies the
cookbook and the SDK exchange with the server. -/
inductive Json where
  | null
  | bool (b : Bool)
  | num (n : Int)
  | str (s : String)
  | arr (xs : List Json)
  | obj (fields : List (String × Json))

/-- Python `str()` of a JSON value, as used by f-string interpolation in the
cookbook.  Container rendering is abbreviated; no claim depends on the exact
rendering of containers, only on strings (rendered verbatim). -/
def pyStr : Json → String
  | Json.null => "None"
  | Json.bool b => if b then "True" else "False"
  | Json.num n => toString n
  | Json.str s => s
  | Json.arr xs => "[array of " ++ toString xs.length ++ " values]"
  | Json.obj fs => "\x7bobject with " ++ toString fs.length ++ " fields\x7d"

inductive HttpMethod where
  | GET
  | POST
  | PUT
  | DELETE
deriving DecidableEq

structure HttpRequest where
  method : HttpMethod
  url : String
  body : Option Json

structure HttpResponse where
  status : Nat
  body : Json

/-- What the server does with one request: either the connection fails
(server unreachable) or a response comes back. -/
inductive ServerBehavior where
  | unreachable
  | respond (r : HttpResponse)

/-- The external Arrakis REST server, abstracted as an oracle. -/
def Server : Type := HttpRequest → ServerBehavior

/-- Python-level exceptions that can propagate through the cookbook code.
`serviceUnavailable` models the transport/connectivity failure raised when the
server is unreachable (spec: `ServiceUnavailable`); `apiError` models the
API-level failure on a non-2xx response, carrying the response whose JSON body
holds the server message (spec: `ApiError`, a `requests.HTTPError`).  The
remaining constructors are ordinary Python errors the cookbook itself can
raise. -/
inductive PyErr where
  | serviceUnavailable (msg : String)
  | apiError (resp : HttpResponse)
  | keyError (key : String)
  | typeError (msg : String)
  | indexError

/-- `str(e)` for an exception, as interpolated by the generic error handler. -/
def pyStrErr : PyErr → String
  | PyErr.serviceUnavailable msg => msg
  | PyErr.apiError resp => toString resp.status ++ " Error"
  | PyErr.keyError key => "\x27" ++ key ++ "\x27"
  | PyErr.typeError msg => msg
  | PyErr.indexError => "list index out of range"

/-- The SDK operations the cookbook invokes, recorded in the trace. -/
inductive SdkOp where
  | listAll
  | startSandbox (name : String)
  | restore (name : String) (snapshotId : String)
  | listVm (name : String)
  | runCmd (name : String) (cmd : String)
  | snapshot (name : String) (tag : String)
  | destroy (name : String)
deriving DecidableEq

/-- Observable events of a run. -/
inductive Event where
  | call (op : SdkOp)
  | http (req : HttpRequest)
  | sleep (seconds : Nat)
  | print (line : String)

/-- A computation: the trace of events it emits, and either its value or the
exception it raises. -/
def M (α : Type) : Type := List Event × Except PyErr α

def M.ok {α : Type} (a : α) : M α := ([], Except.ok a)

def M.fail {α : Type} (e : PyErr) : M α := ([], Except.error e)

def M.emit (ev : Event) : M Unit := ([ev], Except.ok ())

def M.bind {α β : Type} (x : M α) (f : α → M β) : M β :=
  match x.2 with
  | Except.error e => (x.1, Except.error e)
  | Except.ok a => (x.1 ++ (f a).1, (f a).2)

instance : Monad M where
  pure := M.ok
  bind := M.bind

/-- Python `d[k]` on a JSON value: the value at a key of an object, `KeyError`
if the key is missing, `TypeError` on a non-object. -/
def pyIndex (j : Json) (k : String) : M Json :=
  match j with
  | Json.obj fields =>
    match fields.lookup k with
    | some v => M.ok v
    | none => M.fail (PyErr.keyError k)
  | _ => M.fail (PyErr.typeError "value is not subscriptable")

/-- Python `d.get(k, default)` on a JSON object. -/
def jsonGetD (j : Json) (k : String) (dflt : Json) : Json :=
  match j with
  | Json.obj fields =>
    match fields.lookup k with
    | some v => v
    | none => dflt
  | _ => dflt

/-- Python `k in d` on a JSON object. -/
def jsonHasKey (j : Json) (k : String) : Bool :=
  match j with
  | Json.obj fields => (fields.lookup k).isSome
  | _ => false

/-- Python `xs[0]`: first element, `IndexError` on an empty list. -/
def pyHead {α : Type} (xs : List α) : M α :=
  match xs with
  | [] => M.fail PyErr.indexError
  | x :: _ => M.ok x

/-- Python iteration over a JSON value: a list of elements for an array,
`TypeError` otherwise. -/
def pyIterList (j : Json) : M (List Json) :=
  match j with
  | Json.arr xs => M.ok xs
  | _ => M.fail (PyErr.typeError "value is not iterable")

/-- Python `j == s` between a JSON value and a string: true exactly when the
value is that string. -/
def jsonEqStr (j : Json) (s : String) : Bool :=
  match j with
  | Json.str t => t == s
  | _ => false

/-- Modelled from the spec: the py-arrakis SDK package is not part of the
repository sources; per the spec the `SandboxManager` is a stateless facade
holding only the base URL. -/
structure SandboxManager where
  baseUrl : String

/-- Modelled from the spec: a `Sandbox` handle holds a name and the base URL;
it is a lookup key for a remote VM, not an owner of it. -/
structure Sandbox where
  baseUrl : String
  name : String

/-- Modelled from the spec: the exact endpoint paths are server-defined and
external to the repository; representative REST paths are fixed here.
`list_all` issues a GET. -/
def listAllRequest (baseUrl : String) : HttpRequest :=
  { method := HttpMethod.GET, url := baseUrl ++ "/v1/vms", body := none }

/-- Modelled from the spec: `start_sandbox(name)` issues a POST. -/
def startRequest (baseUrl name : String) : HttpRequest :=
  { method := HttpMethod.POST, url := baseUrl ++ "/v1/vms",
    body := some (Json.obj [("name", Json.str name)]) }

/-- Modelled from the spec: `restore(name, snapshot_id)` issues a POST. -/
def restoreRequest (baseUrl name snapshotId : String) : HttpRequest :=
  { method := HttpMethod.POST, url := baseUrl ++ "/v1/vms/" ++ name ++ "/restore",
    body := some (Json.obj [("snapshot_id", Json.str snapshotId)]) }

/-- Modelled from the spec: `Sandbox.list()` issues a GET for the details of
this VM. -/
def listVmRequest (baseUrl name : String) : HttpRequest :=
  { method := HttpMethod.GET, url := baseUrl ++ "/v1/vms/" ++ name, body := none }

/-- Modelled from the spec: `run_cmd(cmd)` POSTs a command string. -/
def runCmdRequest (baseUrl name cmd : String) : HttpRequest :=
  { method := HttpMethod.POST, url := baseUrl ++ "/v1/vms/" ++ name ++ "/cmd",
    body := some (Json.obj [("cmd", Json.str cmd)]) }

/-- Modelled from the spec: `snapshot(tag)` issues a POST. -/
def snapshotRequest (baseUrl name tag : String) : HttpRequest :=
  { method := HttpMethod.POST, url := baseUrl ++ "/v1/vms/" ++ name ++ "/snapshots",
    body := some (Json.obj [("tag", Json.str tag)]) }

/-- Modelled from the spec: `destroy()` issues a DELETE. -/
def destroyRequest (baseUrl name : String) : HttpRequest :=
  { method := HttpMethod.DELETE, url := baseUrl ++ "/v1/vms/" ++ name, body := none }

/-- Modelled from the spec: every SDK wrapper method performs a single HTTP
call; a transport failure raises the connectivity error, and a non-2xx
response raises the API-level error carrying the response. -/
def httpCall (server : Server) (req : HttpRequest) : M HttpResponse :=
  M.bind (M.emit (Event.http req)) fun _ =>
    match server req with
    | ServerBehavior.unreachable =>
        M.fail (PyErr.serviceUnavailable ("Failed to connect to " ++ req.url))
    | ServerBehavior.respond r =>
        if 200 ≤ r.status ∧ r.status < 300 then M.ok r
        else M.fail (PyErr.apiError r)

/-- Parse a VM-listing response body: an array of objects carrying a `name`
string. -/
def vmNamesOf : List Json → Option (List String)
  | [] => some []
  | Json.obj fields :: rest =>
    match fields.lookup "name" with
    | some (Json.str n) => (vmNamesOf rest).map (fun ns => n :: ns)
    | _ => none
  | _ => none

def vmNames : Json → Option (List String)
  | Json.arr xs => vmNamesOf xs
  | _ => none

/-- The canonical well-formed body of a VM-listing response. -/
def vmListBody (names : List String) : Json :=
  Json.arr (names.map (fun n => Json.obj [("name", Json.str n)]))

/-- Modelled from the spec: `list_all()` issues one GET and returns a sequence
of handles, one per VM reported by the server; empty if none exist. -/
def SandboxManager.list_all (sm : SandboxManager) (server : Server) : M (List Sandbox) :=
  M.bind (M.emit (Event.call SdkOp.listAll)) fun _ =>
  M.bind (httpCall server (listAllRequest sm.baseUrl)) fun r =>
    match vmNames r.body with
    | some names => M.ok (names.map (fun n => { baseUrl := sm.baseUrl, name := n }))
    | none => M.fail (PyErr.keyError "name")

/-- Modelled from the spec: `start_sandbox(name)` issues one POST and returns
a handle bound to `name`. -/
def SandboxManager.start_sandbox (sm : SandboxManager) (server : Server)
    (name : String) : M Sandbox :=
  M.bind (M.emit (Event.call (SdkOp.startSandbox name))) fun _ =>
  M.bind (httpCall server (startRequest sm.baseUrl name)) fun _ =>
    M.ok { baseUrl := sm.baseUrl, name := name }

/-- Modelled from the spec: `restore(name, snapshot_id)` issues one POST and
returns a handle bound to `name`. -/
def SandboxManager.restore (sm : SandboxManager) (server : Server)
    (name snapshotId : String) : M Sandbox :=
  M.bind (M.emit (Event.call (SdkOp.restore name snapshotId))) fun _ =>
  M.bind (httpCall server (restoreRequest sm.baseUrl name snapshotId)) fun _ =>
    M.ok { baseUrl := sm.baseUrl, name := name }

/-- Modelled from the spec: `Sandbox.list()` issues one GET and returns the
parsed JSON details of this VM. -/
def Sandbox.list (sb : Sandbox) (server : Server) : M Json :=
  M.bind (M.emit (Event.call (SdkOp.listVm sb.name))) fun _ =>
  M.bind (httpCall server (listVmRequest sb.baseUrl sb.name)) fun r =>
    M.ok r.body

/-- Modelled from the spec: `run_cmd(cmd)` issues one POST and returns the
parsed JSON result carrying the captured output. -/
def Sandbox.run_cmd (sb : Sandbox) (server : Server) (cmd : String) : M Json :=
  M.bind (M.emit (Event.call (SdkOp.runCmd sb.name cmd))) fun _ =>
  M.bind (httpCall server (runCmdRequest sb.baseUrl sb.name cmd)) fun r =>
    M.ok r.body

/-- Modelled from the spec: `snapshot(tag)` issues one POST and returns the
snapshot identifier reported by the server. -/
def Sandbox.snapshot (sb : Sandbox) (server : Server) (tag : String) : M String :=
  M.bind (M.emit (Event.call (SdkOp.snapshot sb.name tag))) fun _ =>
  M.bind (httpCall server (snapshotRequest sb.baseUrl sb.name tag)) fun r =>
    match jsonGetD r.body "snapshot_id" Json.null with
    | Json.str s => M.ok s
    | _ => M.fail (PyErr.keyError "snapshot_id")

/-- Modelled from the spec: `destroy()` issues one DELETE. -/
def Sandbox.destroy (sb : Sandbox) (server : Server) : M Unit :=
  M.bind (M.emit (Event.call (SdkOp.destroy sb.name))) fun _ =>
  M.bind (httpCall server (destroyRequest sb.baseUrl sb.name)) fun _ =>
    M.ok ()

/-- Modelled from the spec: the Python `with` statement on a sandbox handle.
Entering the scoped block yields the handle; on every exit path, normal or
exceptional, `destroy()` is invoked.  Per Python semantics an exception raised
by `destroy()` itself propagates in place of the body outcome. -/
def withSandbox {α : Type} (server : Server) (sb : Sandbox) (body : Sandbox → M α) : M α :=
  let r := body sb
  let d := sb.destroy server
  (r.1 ++ d.1,
    match d.2 with
    | Except.error e2 => Except.error e2
    | Except.ok _ => r.2)

/-- `cookbook.py` line 15: base URL of the Arrakis REST server. -/
def BASE_URL : String := "http://localhost:7000"

/-- `cookbook.py` line 18: fixed wait after starting a VM. -/
def VM_START_WAIT_TIME_SECONDS : Nat := 3

/-- `cookbook.py` lines 31-32: the loop printing one line per listed VM. -/
def printSandboxNames : List Sandbox → M Unit
  | [] => M.ok ()
  | sb :: rest =>
    M.bind (M.emit (Event.print ("  - " ++ sb.name))) fun _ => printSandboxNames rest

/-- `cookbook.py` lines 73-76: the loop printing one line per port forward. -/
def printPortForwards : List Json → M Unit
  | [] => M.ok ()
  | pf :: rest =>
    M.bind (pyIndex pf "host_port") fun hp =>
    M.bind (pyIndex pf "guest_port") fun gp =>
    M.bind (pyIndex pf "description") fun d =>
    M.bind (M.emit (Event.print
      ("    Host:" ++ pyStr hp ++ " → Guest:" ++ pyStr gp ++ " (" ++ pyStr d ++ ")"))) fun _ =>
    printPortForwards rest

/-- `cookbook.py` lines 21-45: `basic_usage_example`. -/
def basic_usage_example (server : Server) : M Unit := do
  M.emit (Event.print "=== Basic Usage Example ===")
  let sandbox_manager := SandboxManager.mk BASE_URL
  M.emit (Event.print "Listing all VMs:")
  let sandboxes ← sandbox_manager.list_all server
  printSandboxNames sandboxes
  if sandboxes.isEmpty then do
    M.emit (Event.print "Starting a new VM...")
    let new_sandbox ← sandbox_manager.start_sandbox server "example-vm"
    M.emit (Event.print ("Started VM: " ++ new_sandbox.name))
    M.emit (Event.print "Waiting for VM to initialize...")
    M.emit (Event.sleep VM_START_WAIT_TIME_SECONDS)
  else do
    let _new_sandbox ← pyHead sandboxes
    M.ok ()

/-- `cookbook.py` lines 48-81: `vm_management_example`. -/
def vm_management_example (server : Server) : M Unit := do
  M.emit (Event.print "=== VM Management Example ===")
  let sandbox_manager := SandboxManager.mk BASE_URL
  M.emit (Event.print "Starting a new VM...")
  let sandbox ← sandbox_manager.start_sandbox server "lifecycle-example"
  M.emit (Event.print ("Started VM: " ++ sandbox.name))
  M.emit (Event.print "Waiting for VM to initialize...")
  M.emit (Event.sleep VM_START_WAIT_TIME_SECONDS)
  M.emit (Event.print "Getting VM details:")
  let details ← sandbox.list server
  M.emit (Event.print ("  Status: " ++ pyStr (jsonGetD details "status" Json.null)))
  M.emit (Event.print ("  IP: " ++ pyStr (jsonGetD details "ip" Json.null)))
  M.emit (Event.print ("  Tap Device: " ++ pyStr (jsonGetD details "tap_device_name" Json.null)))
  if jsonHasKey details "port_forwards" then do
    M.emit (Event.print "  Port Forwards:")
    let pfs ← pyIndex details "port_forwards"
    let xs ← pyIterList pfs
    printPortForwards xs
  else M.ok ()
  M.emit (Event.print "Destroying the VM...")
  sandbox.destroy server
  M.emit (Event.print "VM destroyed")

/-- `cookbook.py` lines 84-139: `snapshot_example`. -/
def snapshot_example (server : Server) : M Unit := do
  M.emit (Event.print "=== Snapshot Example ===")
  let sandbox_manager := SandboxManager.mk BASE_URL
  let sandbox_name := "snapshot-example"
  M.emit (Event.print "Starting a test VM for snapshots...")
  let sandbox ← sandbox_manager.start_sandbox server sandbox_name
  M.emit (Event.print "Waiting for VM to initialize...")
  M.emit (Event.sleep VM_START_WAIT_TIME_SECONDS)
  M.emit (Event.print "Modifying VM state before snapshot...")
  let result ← sandbox.run_cmd server "echo \x27test data before snapshot\x27 > /tmp/testfile"
  M.emit (Event.print ("Command output: " ++ pyStr (jsonGetD result "output" (Json.str ""))))
  M.emit (Event.print "Creating a snapshot...")
  let snapshot_id ← sandbox.snapshot server "initial-state"
  M.emit (Event.print ("Created snapshot with ID: " ++ snapshot_id))
  M.emit (Event.print "Modifying VM state after snapshot...")
  let result ← sandbox.run_cmd server "echo \x27test data after snapshot\x27 > /tmp/testfile"
  M.emit (Event.print ("Command output: " ++ pyStr (jsonGetD result "output" (Json.str ""))))
  M.emit (Event.print "Verifying file was created...")
  let result ← sandbox.run_cmd server "cat /tmp/testfile"
  M.emit (Event.print ("File content: " ++ pyStr (jsonGetD result "output" (Json.str ""))))
  M.emit (Event.print "Destroying the sandbox...")
  sandbox.destroy server
  M.emit (Event.print "Restoring from snapshot...")
  let sandbox ← sandbox_manager.restore server sandbox_name snapshot_id
  M.emit (Event.print "Snapshot restored")
  M.emit (Event.print "Verifying file state after restore...")
  let result ← sandbox.run_cmd server "cat /tmp/testfile"
  let out ← pyIndex result "output"
  if jsonEqStr out "test data before snapshot\n" then
    M.emit (Event.print "File content is correct after restore (as expected)")
  else
    M.emit (Event.print ("Unexpected result: " ++ pyStr result))
  M.emit (Event.print "Cleaning up...")
  sandbox.destroy server
  M.emit (Event.print "VM destroyed")

/-- `cookbook.py` lines 142-167: `context_manager_example`. -/
def context_manager_example (server : Server) : M Unit := do
  M.emit (Event.print "=== Context Manager Example ===")
  let sandbox_manager := SandboxManager.mk BASE_URL
  M.emit (Event.print "Starting a VM using context manager (will auto-destroy when done)...")
  let started ← sandbox_manager.start_sandbox server "auto-cleanup-example"
  withSandbox server started (fun sandbox => do
    M.emit (Event.print ("Started VM: " ++ sandbox.name))
    M.emit (Event.print "Waiting for VM to initialize...")
    M.emit (Event.sleep VM_START_WAIT_TIME_SECONDS)
    M.emit (Event.print "Running commands in the VM...")
    let result ← sandbox.run_cmd server "echo \x27Hello from sandbox context manager\x27"
    M.emit (Event.print ("Command output: " ++ pyStr (jsonGetD result "output" (Json.str ""))))
    M.emit (Event.print "Exiting context - VM will be destroyed automatically"))
  M.emit (Event.print "VM has been destroyed automatically")

/-- `cookbook.py` line 184: the ANSI red color code `\033[91m`. -/
def RED : String := "\x1b[91m"

/-- `cookbook.py` line 185: the ANSI reset code `\033[0m`. -/
def RESET : String := "\x1b[0m"

/-- `cookbook.py` lines 170-197: `wrap_with_error_handling`.  Runs `func`; a
`requests.HTTPError` (the API-level error) is handled by printing the
server-supplied `error.message` from the attached response; any other
exception is handled by the generic diagnostic.  A fall-through handler
returns `None`; an exception raised inside a handler propagates. -/
def wrap_with_error_handling {α : Type} (func : M α) : M (Option α) :=
  match func.2 with
  | Except.ok a => (func.1, Except.ok (some a))
  | Except.error (PyErr.apiError resp) =>
    let handler : M Unit :=
      M.bind (pyIndex resp.body "error") fun error_data =>
      M.bind (pyIndex error_data "message") fun msg =>
      M.emit (Event.print (RED ++ "API Error: " ++ pyStr msg ++ RESET))
    (func.1 ++ handler.1,
      match handler.2 with
      | Except.ok _ => Except.ok none
      | Except.error e2 => Except.error e2)
  | Except.error e =>
    (func.1 ++
      [Event.print (RED ++ "Error: " ++ pyStrErr e ++ RESET),
       Event.print (RED ++ "Make sure the Arrakis server is running and accessible at "
         ++ BASE_URL ++ RESET)],
     Except.ok none)

/-- The sandbox name an SDK operation acts on, for the operations the
cookbook performs on a handle (`list`, `run_cmd`, `snapshot`, `destroy`). -/
def opOnSandbox : SdkOp → Option String
  | SdkOp.listVm n => some n
  | SdkOp.runCmd n _ => some n
  | SdkOp.snapshot n _ => some n
  | SdkOp.destroy n => some n
  | _ => none

/-- Trace check for the wait-after-start discipline: after a
`start_sandbox(n)` invocation, no `list`/`run_cmd`/`snapshot`/`destroy` is
performed on `n` until a sleep has been executed.  `pending` holds the names
started and not yet followed by a sleep. -/
def sleepSeparatesOps : List String → List Event → Bool
  | _, [] => true
  | pending, Event.call (SdkOp.startSandbox n) :: rest =>
      sleepSeparatesOps (n :: pending) rest
  | _, Event.sleep _ :: rest => sleepSeparatesOps [] rest
  | pending, Event.call op :: rest =>
      match opOnSandbox op with
      | some n => if pending.contains n then false else sleepSeparatesOps pending rest
      | none => sleepSeparatesOps pending rest
  | pending, _ :: rest => sleepSeparatesOps pending rest

/-- How many times `destroy()` is invoked on the sandbox named `name` in a
trace. -/
def destroyCount (name : String) : List Event → Nat
  | [] => 0
  | Event.call (SdkOp.destroy n) :: rest =>
      (if n = name then 1 else 0) + destroyCount name rest
  | _ :: rest => destroyCount name rest

/-- An event that destroys a VM: a `destroy()` invocation or a DELETE
request. -/
def isDestroyEvent : Event → Bool
  | Event.call (SdkOp.destroy _) => true
  | Event.http req => req.method == HttpMethod.DELETE
  | _ => false

def isHttpEvent : Event → Bool
  | Event.http _ => true
  | _ => false

/-- Every sleep in the trace is the fixed `VM_START_WAIT_TIME_SECONDS`. -/
def isSleepFixed : Event → Bool
  | Event.sleep s => s == VM_START_WAIT_TIME_SECONDS
  | _ => true

def isPrintEvent : Event → Bool
  | Event.print _ => true
  | _ => false

def onlyPrints (tr : List Event) : Bool := tr.all isPrintEvent

/-- Trace check for the snapshot/restore discipline: every `restore`
invocation carries exactly the given name and snapshot id, and only happens
once `destroy()` has been invoked on that name earlier in the trace. -/
def restoreAfterDestroy (name snapshotId : String) : Bool → List Event → Bool
  | _, [] => true
  | destroyed, Event.call (SdkOp.destroy n) :: rest =>
      restoreAfterDestroy name snapshotId (destroyed || n == name) rest
  | destroyed, Event.call (SdkOp.restore n s) :: rest =>
      if n == name && s == snapshotId && destroyed then
        restoreAfterDestroy name snapshotId destroyed rest
      else false
  | destroyed, _ :: rest => restoreAfterDestroy name snapshotId destroyed rest

/-- A server that never answers: every connection attempt fails. -/
def unreachableServer : Server := fun _ => ServerBehavior.unreachable

/-- A server answering every request with the same status and body. -/
def constServer (status : Nat) (body : Json) : Server :=
  fun _ => ServerBehavior.respond { status := status, body := body }

/-- No event in the trace destroys a VM: no `destroy()` invocation and no
DELETE request. -/
def destroyFree : List Event → Bool
  | [] => true
  | Event.call (SdkOp.destroy _) :: _ => false
  | Event.http req :: rest =>
      if req.method = HttpMethod.DELETE then false else destroyFree rest
  | _ :: rest => destroyFree rest

/-- Every sleep in the trace is the fixed `VM_START_WAIT_TIME_SECONDS`. -/
def sleepsFixed : List Event → Bool
  | [] => true
  | Event.sleep s :: rest =>
      if s = VM_START_WAIT_TIME_SECONDS then sleepsFixed rest else false
  | _ :: rest => sleepsFixed rest

/-- Whether the trace contains a `start_sandbox` invocation for `name`. -/
def callsStart (name : String) : List Event → Bool
  | [] => false
  | Event.call (SdkOp.startSandbox n) :: rest => n == name || callsStart name rest
  | _ :: rest => callsStart name rest

@[simp] theorem M.bind_eq_bind {α β : Type} (x : M α) (f : α → M β) :
    x >>= f = M.bind x f := rfl

@[simp] theorem M.pure_eq {α : Type} (a : α) : (pure a : M α) = ([], Except.ok a) := rfl

@[simp] theorem M.ok_eq {α : Type} (a : α) : (M.ok a : M α) = ([], Except.ok a) := rfl

@[simp] theorem M.fail_eq {α : Type} (e : PyErr) : (M.fail e : M α) = ([], Except.error e) := rfl

@[simp] theorem M.emit_eq (ev : Event) : M.emit ev = ([ev], Except.ok ()) := rfl

@[simp] theorem M.bind_pair_err {α β : Type} (tr : List Event) (e : PyErr) (f : α → M β) :
    M.bind (tr, Except.error e) f = (tr, Except.error e) := rfl

@[simp] theorem M.bind_pair_ok {α β : Type} (tr : List Event) (a : α) (f : α → M β) :
    M.bind (tr, Except.ok a) f = (tr ++ (f a).1, (f a).2) := rfl

theorem httpCall_unreachable (server : Server) (req : HttpRequest)
    (h : server req = ServerBehavior.unreachable) :
    httpCall server req =
      ([Event.http req],
       Except.error (PyErr.serviceUnavailable ("Failed to connect to " ++ req.url))) := by
  unfold httpCall
  simp [h]

theorem httpCall_ok (server : Server) (req : HttpRequest) (r : HttpResponse)
    (h : server req = ServerBehavior.respond r) (h2 : 200 ≤ r.status ∧ r.status < 300) :
    httpCall server req = ([Event.http req], Except.ok r) := by
  unfold httpCall
  simp [h, h2]

theorem httpCall_err (server : Server) (req : HttpRequest) (r : HttpResponse)
    (h : server req = ServerBehavior.respond r) (h2 : ¬(200 ≤ r.status ∧ r.status < 300)) :
    httpCall server req = ([Event.http req], Except.error (PyErr.apiError r)) := by
  unfold httpCall
  simp [h, h2]

theorem httpCall_eq (server : Server) (req : HttpRequest) :
    httpCall server req = ([Event.http req], (httpCall server req).2) := by
  rcases h : server req with _ | r
  · rw [httpCall_unreachable server req h]
  · by_cases h2 : 200 ≤ r.status ∧ r.status < 300
    · rw [httpCall_ok server req r h h2]
    · rw [httpCall_err server req r h h2]

theorem list_all_eq (sm : SandboxManager) (server : Server) :
    sm.list_all server =
      ([Event.call SdkOp.listAll, Event.http (listAllRequest sm.baseUrl)],
       match (httpCall server (listAllRequest sm.baseUrl)).2 with
       | Except.error e => Except.error e
       | Except.ok r =>
         match vmNames r.body with
         | some names =>
             Except.ok (names.map (fun n => ({ baseUrl := sm.baseUrl, name := n } : Sandbox)))
         | none => Except.error (PyErr.keyError "name")) := by
  rcases h : server (listAllRequest sm.baseUrl) with _ | r
  · simp [SandboxManager.list_all, httpCall, h, M.bind]
  · by_cases h2 : 200 ≤ r.status ∧ r.status < 300
    · rcases h3 : vmNames r.body with _ | names <;>
        simp [SandboxManager.list_all, httpCall, h, h2, h3, M.bind]
    · simp [SandboxManager.list_all, httpCall, h, h2, M.bind]

theorem start_sandbox_eq (sm : SandboxManager) (server : Server) (name : String) :
    sm.start_sandbox server name =
      ([Event.call (SdkOp.startSandbox name), Event.http (startRequest sm.baseUrl name)],
       match (httpCall server (startRequest sm.baseUrl name)).2 with
       | Except.error e => Except.error e
       | Except.ok _ => Except.ok ({ baseUrl := sm.baseUrl, name := name } : Sandbox)) := by
  rcases h : server (startRequest sm.baseUrl name) with _ | r
  · simp [SandboxManager.start_sandbox, httpCall, h, M.bind]
  · by_cases h2 : 200 ≤ r.status ∧ r.status < 300 <;>
      simp [SandboxManager.start_sandbox, httpCall, h, h2, M.bind]

theorem restore_eq (sm : SandboxManager) (server : Server) (name snapshotId : String) :
    sm.restore server name snapshotId =
      ([Event.call (SdkOp.restore name snapshotId),
        Event.http (restoreRequest sm.baseUrl name snapshotId)],
       match (httpCall server (restoreRequest sm.baseUrl name snapshotId)).2 with
       | Except.error e => Except.error e
       | Except.ok _ => Except.ok ({ baseUrl := sm.baseUrl, name := name } : Sandbox)) := by
  rcases h : server (restoreRequest sm.baseUrl name snapshotId) with _ | r
  · simp [SandboxManager.restore, httpCall, h, M.bind]
  · by_cases h2 : 200 ≤ r.status ∧ r.status < 300 <;>
      simp [SandboxManager.restore, httpCall, h, h2, M.bind]

theorem sandbox_list_eq (sb : Sandbox) (server : Server) :
    sb.list server =
      ([Event.call (SdkOp.listVm sb.name), Event.http (listVmRequest sb.baseUrl sb.name)],
       match (httpCall server (listVmRequest sb.baseUrl sb.name)).2 with
       | Except.error e => Except.error e
       | Except.ok r => Except.ok r.body) := by
  rcases h : server (listVmRequest sb.baseUrl sb.name) with _ | r
  · simp [Sandbox.list, httpCall, h, M.bind]
  · by_cases h2 : 200 ≤ r.status ∧ r.status < 300 <;>
      simp [Sandbox.list, httpCall, h, h2, M.bind]

theorem run_cmd_eq (sb : Sandbox) (server : Server) (cmd : String) :
    sb.run_cmd server cmd =
      ([Event.call (SdkOp.runCmd sb.name cmd),
        Event.http (runCmdRequest sb.baseUrl sb.name cmd)],
       match (httpCall server (runCmdRequest sb.baseUrl sb.name cmd)).2 with
       | Except.error e => Except.error e
       | Except.ok r => Except.ok r.body) := by
  rcases h : server (runCmdRequest sb.baseUrl sb.name cmd) with _ | r
  · simp [ Sandbox.run_cmd, httpCall, h, M.bind]
  · by_cases h2 : 200 ≤ r.status ∧ r.status < 300 <;>
      simp [ Sandbox.run_cmd, httpCall, h, h2, M.bind]

theorem snapshot_eq (sb : Sandbox) (server : Server) (tag : String) :
    sb.snapshot server tag =
      ([Event.call (SdkOp.snapshot sb.name tag),
        Event.http (snapshotRequest sb.baseUrl sb.name tag)],
       match (httpCall server (snapshotRequest sb.baseUrl sb.name tag)).2 with
       | Except.error e => Except.error e
       | Except.ok r =>
         match jsonGetD r.body "snapshot_id" Json.null with
         | Json.str s => Except.ok s
         | _ => Except.error (PyErr.keyError "snapshot_id")) := by
  rcases h : server (snapshotRequest sb.baseUrl sb.name tag) with _ | r
  · simp [Sandbox.snapshot, httpCall, h, M.bind]
  · by_cases h2 : 200 ≤ r.status ∧ r.status < 300
    · rcases h3 : jsonGetD r.body "snapshot_id" Json.null with _ | b | n | s | xs | fs <;>
        simp [Sandbox.snapshot, httpCall, h, h2, h3, M.bind]
    · simp [Sandbox.snapshot, httpCall, h, h2, M.bind]

theorem destroy_eq (sb : Sandbox) (server : Server) :
    sb.destroy server =
      ([Event.call (SdkOp.destroy sb.name), Event.http (destroyRequest sb.baseUrl sb.name)],
       match (httpCall server (destroyRequest sb.baseUrl sb.name)).2 with
       | Except.error e => Except.error e
       | Except.ok _ => Except.ok ()) := by
  rcases h : server (destroyRequest sb.baseUrl sb.name) with _ | r
  · simp [Sandbox.destroy, httpCall, h, M.bind]
  · by_cases h2 : 200 ≤ r.status ∧ r.status < 300 <;>
      simp [Sandbox.destroy, httpCall, h, h2, M.bind]

theorem pyIndex_eq (j : Json) (k : String) : pyIndex j k = ([], (pyIndex j k).2) := by
  cases j <;> simp only [pyIndex] <;> try rfl
  rcases h : List.lookup k _ with _ | v <;> simp [h]

theorem pyIterList_eq (j : Json) : pyIterList j = ([], (pyIterList j).2) := by
  cases j <;> rfl

theorem pyHead_eq {α : Type} (xs : List α) : pyHead xs = ([], (pyHead xs).2) := by
  cases xs <;> rfl

theorem destroyCount_append (name : String) (a b : List Event) :
    destroyCount name (a ++ b) = destroyCount name a + destroyCount name b := by
  induction a with
  | nil => simp [destroyCount]
  | cons ev rest ih =>
    cases ev with
    | call op => cases op <;> simp [destroyCount, ih, Nat.add_assoc]
    | http req => simp [destroyCount, ih]
    | sleep s => simp [destroyCount, ih]
    | print s => simp [destroyCount, ih]

theorem all_of_onlyPrints (f : Event → Bool) (tr : List Event)
    (hf : ∀ s, f (Event.print s) = true) (h : onlyPrints tr = true) :
    tr.all f = true := by
  induction tr with
  | nil => rfl
  | cons ev rest ih =>
    simp only [onlyPrints, List.all_cons, Bool.and_eq_true] at h
    obtain ⟨h1, h2⟩ := h
    cases ev with
    | call op => exact absurd h1 (by simp [isPrintEvent])
    | http req => exact absurd h1 (by simp [isPrintEvent])
    | sleep s => exact absurd h1 (by simp [isPrintEvent])
    | print s => simp [List.all_cons, hf, ih h2]

theorem sleepSeparatesOps_prints_append (p : List String) (tr rest : List Event)
    (h : onlyPrints tr = true) :
    sleepSeparatesOps p (tr ++ rest) = sleepSeparatesOps p rest := by
  induction tr with
  | nil => rfl
  | cons ev tr2 ih =>
    simp only [onlyPrints, List.all_cons, Bool.and_eq_true] at h
    obtain ⟨h1, h2⟩ := h
    cases ev with
    | call op => exact absurd h1 (by simp [isPrintEvent])
    | http req => exact absurd h1 (by simp [isPrintEvent])
    | sleep s => exact absurd h1 (by simp [isPrintEvent])
    | print s => simp [sleepSeparatesOps, ih h2]

theorem restoreAfterDestroy_prints_append (name snapshotId : String) (d : Bool)
    (tr rest : List Event) (h : onlyPrints tr = true) :
    restoreAfterDestroy name snapshotId d (tr ++ rest) =
      restoreAfterDestroy name snapshotId d rest := by
  induction tr with
  | nil => rfl
  | cons ev tr2 ih =>
    simp only [onlyPrints, List.all_cons, Bool.and_eq_true] at h
    obtain ⟨h1, h2⟩ := h
    cases ev with
    | call op => exact absurd h1 (by simp [isPrintEvent])
    | http req => exact absurd h1 (by simp [isPrintEvent])
    | sleep s => exact absurd h1 (by simp [isPrintEvent])
    | print s => simp [restoreAfterDestroy, ih h2]

theorem destroyCount_prints (name : String) (tr : List Event) (h : onlyPrints tr = true) :
    destroyCount name tr = 0 := by
  induction tr with
  | nil => rfl
  | cons ev tr2 ih =>
    simp only [onlyPrints, List.all_cons, Bool.and_eq_true] at h
    obtain ⟨h1, h2⟩ := h
    cases ev with
    | call op => exact absurd h1 (by simp [isPrintEvent])
    | http req => exact absurd h1 (by simp [isPrintEvent])
    | sleep s => exact absurd h1 (by simp [isPrintEvent])
    | print s => simp [destroyCount, ih h2]

theorem printSandboxNames_onlyPrints (sbs : List Sandbox) :
    onlyPrints (printSandboxNames sbs).1 = true := by
  induction sbs with
  | nil => rfl
  | cons sb rest ih =>
    simp only [printSandboxNames, M.bind, M.emit, onlyPrints, List.all_cons,
      Bool.and_eq_true, isPrintEvent, Bool.true_and] at ih ⊢
    exact ih

theorem printPortForwards_onlyPrints (xs : List Json) :
    onlyPrints (printPortForwards xs).1 = true := by
  induction xs with
  | nil => rfl
  | cons pf rest ih =>
    rw [printPortForwards, pyIndex_eq pf "host_port"]
    rcases h1 : (pyIndex pf "host_port").2 with e1 | hp
    · simp [h1, M.bind, onlyPrints]
    · rw [pyIndex_eq pf "guest_port"]
      rcases h2 : (pyIndex pf "guest_port").2 with e2 | gp
      · simp [h1, h2, M.bind, onlyPrints]
      · rw [pyIndex_eq pf "description"]
        rcases h3 : (pyIndex pf "description").2 with e3 | d
        · simp [h1, h2, h3, M.bind, onlyPrints]
        · simp [h1, h2, h3, M.bind, onlyPrints, isPrintEvent] at ih ⊢
          exact ih

theorem destroyFree_append (a b : List Event) :
    destroyFree (a ++ b) = (destroyFree a && destroyFree b) := by
  induction a with
  | nil => rfl
  | cons ev rest ih =>
    cases ev with
    | call op => cases op <;> simp [destroyFree, ih]
    | http req =>
      by_cases h : req.method = HttpMethod.DELETE <;> simp [destroyFree, h, ih]
    | sleep s => simp [destroyFree, ih]
    | print s => simp [destroyFree, ih]

theorem sleepsFixed_append (a b : List Event) :
    sleepsFixed (a ++ b) = (sleepsFixed a && sleepsFixed b) := by
  induction a with
  | nil => rfl
  | cons ev rest ih =>
    cases ev with
    | call op => simp [sleepsFixed, ih]
    | http req => simp [sleepsFixed, ih]
    | sleep s =>
      by_cases h : s = VM_START_WAIT_TIME_SECONDS <;> simp [sleepsFixed, h, ih]
    | print s => simp [sleepsFixed, ih]

theorem callsStart_append (name : String) (a b : List Event) :
    callsStart name (a ++ b) = (callsStart name a || callsStart name b) := by
  induction a with
  | nil => rfl
  | cons ev rest ih =>
    cases ev with
    | call op => cases op <;> simp [callsStart, ih, Bool.or_assoc]
    | http req => simp [callsStart, ih]
    | sleep s => simp [callsStart, ih]
    | print s => simp [callsStart, ih]

theorem destroyFree_prints (tr : List Event) (h : onlyPrints tr = true) :
    destroyFree tr = true := by
  induction tr with
  | nil => rfl
  | cons ev tr2 ih =>
    simp only [onlyPrints, List.all_cons, Bool.and_eq_true] at h
    obtain ⟨h1, h2⟩ := h
    cases ev with
    | call op => exact absurd h1 (by simp [isPrintEvent])
    | http req => exact absurd h1 (by simp [isPrintEvent])
    | sleep s => exact absurd h1 (by simp [isPrintEvent])
    | print s => simp [destroyFree, ih h2]

theorem sleepsFixed_prints (tr : List Event) (h : onlyPrints tr = true) :
    sleepsFixed tr = true := by
  induction tr with
  | nil => rfl
  | cons ev tr2 ih =>
    simp only [onlyPrints, List.all_cons, Bool.and_eq_true] at h
    obtain ⟨h1, h2⟩ := h
    cases ev with
    | call op => exact absurd h1 (by simp [isPrintEvent])
    | http req => exact absurd h1 (by simp [isPrintEvent])
    | sleep s => exact absurd h1 (by simp [isPrintEvent])
    | print s => simp [sleepsFixed, ih h2]

theorem callsStart_prints (name : String) (tr : List Event) (h : onlyPrints tr = true) :
    callsStart name tr = false := by
  induction tr with
  | nil => rfl
  | cons ev tr2 ih =>
    simp only [onlyPrints, List.all_cons, Bool.and_eq_true] at h
    obtain ⟨h1, h2⟩ := h
    cases ev with
    | call op => exact absurd h1 (by simp [isPrintEvent])
    | http req => exact absurd h1 (by simp [isPrintEvent])
    | sleep s => exact absurd h1 (by simp [isPrintEvent])
    | print s => simp [callsStart, ih h2]

theorem printSandboxNames_snd (sbs : List Sandbox) :
    (printSandboxNames sbs).2 = Except.ok () := by
  induction sbs with
  | nil => rfl
  | cons sb rest ih => simp [printSandboxNames, M.bind, M.emit, ih]

/-- C10: `basic_usage_example` never invokes `destroy()` on any sandbox and
never issues a DELETE request, whatever the server does: the VM it may have
started is left in existence when the function returns. -/
theorem basic_usage_never_destroys (server : Server) :
    destroyFree (basic_usage_example server).1 = true := by
  simp only [basic_usage_example, M.bind_eq_bind, M.emit_eq, M.bind_pair_ok,
    M.bind_pair_err, M.pure_eq, M.ok_eq, List.nil_append, List.cons_append]
  rw [list_all_eq]
  rcases hc : (httpCall server (listAllRequest (SandboxManager.mk BASE_URL).baseUrl)).2 with e | r
  · simp [hc, destroyFree, listAllRequest]
  · simp only [hc]
    rcases hv : vmNames r.body with _ | names
    · simp [hv, destroyFree, listAllRequest]
    · simp only [hv, M.bind_pair_ok, List.cons_append, List.nil_append]
      rcases names with _ | ⟨n, ns⟩
      · simp only [List.map_nil, List.isEmpty_nil, if_true]
        rw [start_sandbox_eq]
        rcases hs : (httpCall server
            (startRequest (SandboxManager.mk BASE_URL).baseUrl "example-vm")).2 with e2 | r2 <;>
          simp [hs, destroyFree, destroyFree_append, listAllRequest, startRequest,
            printSandboxNames, destroyFree_prints _ (printSandboxNames_onlyPrints _)]
      · simp [destroyFree, destroyFree_append, listAllRequest, startRequest, pyHead,
          printSandboxNames, printSandboxNames_snd,
          destroyFree_prints _ (printSandboxNames_onlyPrints _)]

theorem sleepSeparatesOps_prints (p : List String) (tr : List Event)
    (h : onlyPrints tr = true) : sleepSeparatesOps p tr = true := by
  have h2 := sleepSeparatesOps_prints_append p tr [] h
  simpa using h2

theorem basic_usage_sleep_discipline (server : Server) :
    sleepSeparatesOps [] (basic_usage_example server).1 = true ∧
      sleepsFixed (basic_usage_example server).1 = true := by
  simp only [basic_usage_example, M.bind_eq_bind, M.emit_eq, M.bind_pair_ok,
    M.bind_pair_err, M.pure_eq, M.ok_eq, List.nil_append, List.cons_append]
  rw [list_all_eq]
  rcases hc : (httpCall server (listAllRequest (SandboxManager.mk BASE_URL).baseUrl)).2 with e | r
  · simp [hc, sleepSeparatesOps, opOnSandbox, sleepsFixed]
  · simp only [hc]
    rcases hv : vmNames r.body with _ | names
    · simp [hv, sleepSeparatesOps, opOnSandbox, sleepsFixed]
    · simp only [hv, M.bind_pair_ok, List.cons_append, List.nil_append]
      rcases names with _ | ⟨n, ns⟩
      · simp only [List.map_nil, List.isEmpty_nil, if_true]
        rw [start_sandbox_eq]
        rcases hs : (httpCall server
            (startRequest (SandboxManager.mk BASE_URL).baseUrl "example-vm")).2 with e2 | r2 <;>
          simp [hs, sleepSeparatesOps, opOnSandbox, sleepsFixed, printSandboxNames,
            sleepSeparatesOps_prints_append _ _ _ (printSandboxNames_onlyPrints _),
            sleepsFixed_append, sleepsFixed_prints _ (printSandboxNames_onlyPrints _)]
      · simp [sleepSeparatesOps, opOnSandbox, sleepsFixed, pyHead, printSandboxNames,
          printSandboxNames_snd,
          sleepSeparatesOps_prints_append _ _ _ (printSandboxNames_onlyPrints _),
          sleepSeparatesOps_prints _ _ (printSandboxNames_onlyPrints _),
          sleepsFixed_append, sleepsFixed_prints _ (printSandboxNames_onlyPrints _)]

theorem M.bind_snd_err {α β : Type} (x : M α) (f : α → M β) (e : PyErr)
    (h : x.2 = Except.error e) : M.bind x f = (x.1, Except.error e) := by
  unfold M.bind
  rw [h]

theorem M.bind_snd_ok {α β : Type} (x : M α) (f : α → M β) (a : α)
    (h : x.2 = Except.ok a) : M.bind x f = (x.1 ++ (f a).1, (f a).2) := by
  unfold M.bind
  rw [h]

theorem vm_management_sleep_discipline (server : Server) :
    sleepSeparatesOps [] (vm_management_example server).1 = true ∧
      sleepsFixed (vm_management_example server).1 = true := by
  simp only [vm_management_example, M.bind_eq_bind, M.emit_eq, M.bind_pair_ok,
    M.bind_pair_err, M.pure_eq, M.ok_eq, List.nil_append, List.cons_append]
  rw [start_sandbox_eq]
  rcases hs : (httpCall server
      (startRequest (SandboxManager.mk BASE_URL).baseUrl "lifecycle-example")).2 with e | r
  · simp [hs, sleepSeparatesOps, opOnSandbox, sleepsFixed]
  · simp only [hs, M.bind_pair_ok, List.cons_append, List.nil_append]
    try dsimp only
    rw [sandbox_list_eq]
    try dsimp only
    rcases hl : (httpCall server (listVmRequest BASE_URL "lifecycle-example")).2 with e2 | r2
    · simp [hl, sleepSeparatesOps, opOnSandbox, sleepsFixed]
    · simp only [hl, M.bind_pair_ok, List.cons_append, List.nil_append]
      cases hk : jsonHasKey r2.body "port_forwards"
      · simp only [hk, Bool.false_eq_true, if_false]
        rw [destroy_eq]
        try dsimp only
        rcases hd : (httpCall server (destroyRequest BASE_URL "lifecycle-example")).2 with e5 | r5 <;>
          simp [hd, sleepSeparatesOps, opOnSandbox, sleepsFixed]
      · simp only [hk, if_true]
        rw [pyIndex_eq r2.body "port_forwards"]
        rcases hpf : (pyIndex r2.body "port_forwards").2 with e3 | pfs
        · simp [hpf, sleepSeparatesOps, opOnSandbox, sleepsFixed]
        · simp only [hpf, M.bind_pair_ok, M.bind_pair_err, List.cons_append, List.nil_append]
          rw [pyIterList_eq pfs]
          rcases hit : (pyIterList pfs).2 with e4 | xs
          · simp [hit, sleepSeparatesOps, opOnSandbox, sleepsFixed]
          · simp only [hit, M.bind_pair_ok, List.cons_append, List.nil_append]
            rcases hpp : (printPortForwards xs).2 with e6 | u
            · rw [M.bind_snd_err _ _ _ hpp]
              simp [sleepSeparatesOps, opOnSandbox, sleepsFixed, sleepsFixed_append,
                sleepSeparatesOps_prints_append _ _ _ (printPortForwards_onlyPrints _),
                sleepSeparatesOps_prints _ _ (printPortForwards_onlyPrints _),
                sleepsFixed_prints _ (printPortForwards_onlyPrints _)]
            · rw [M.bind_snd_ok _ _ _ hpp]
              rw [destroy_eq]
              try dsimp only
              rcases hd : (httpCall server (destroyRequest BASE_URL "lifecycle-example")).2 with e5 | r5 <;>
                simp [hd, sleepSeparatesOps, opOnSandbox, sleepsFixed, sleepsFixed_append,
                  sleepSeparatesOps_prints_append _ _ _ (printPortForwards_onlyPrints _),
                  sleepSeparatesOps_prints _ _ (printPortForwards_onlyPrints _),
                  sleepsFixed_prints _ (printPortForwards_onlyPrints _)]

theorem context_manager_sleep_discipline (server : Server) :
    sleepSeparatesOps [] (context_manager_example server).1 = true ∧
      sleepsFixed (context_manager_example server).1 = true := by
  simp only [context_manager_example, M.bind_eq_bind, M.emit_eq, M.bind_pair_ok,
    M.bind_pair_err, M.pure_eq, M.ok_eq, List.nil_append, List.cons_append]
  rw [start_sandbox_eq]
  rcases hs : (httpCall server
      (startRequest (SandboxManager.mk BASE_URL).baseUrl "auto-cleanup-example")).2 with e | r
  · simp [hs, sleepSeparatesOps, opOnSandbox, sleepsFixed]
  · simp only [hs, M.bind_pair_ok, List.cons_append, List.nil_append]
    try dsimp only
    simp only [withSandbox, M.bind_eq_bind, M.emit_eq, M.bind_pair_ok,
      M.bind_pair_err, M.pure_eq, M.ok_eq, List.nil_append, List.cons_append]
    rw [run_cmd_eq]
    try dsimp only
    rcases hr : (httpCall server (runCmdRequest BASE_URL "auto-cleanup-example"
        "echo \x27Hello from sandbox context manager\x27")).2 with e2 | r2 <;>
      simp only [hr, M.bind_pair_ok, M.bind_pair_err, List.cons_append, List.nil_append] <;>
      rw [destroy_eq] <;> try dsimp only
    · rcases hd : (httpCall server (destroyRequest BASE_URL "auto-cleanup-example")).2 with e3 | r3 <;>
        simp [hd, sleepSeparatesOps, opOnSandbox, sleepsFixed]
    · rcases hd : (httpCall server (destroyRequest BASE_URL "auto-cleanup-example")).2 with e3 | r3 <;>
        simp [hd, sleepSeparatesOps, opOnSandbox, sleepsFixed]

theorem snapshot_sleep_discipline (server : Server) :
    sleepSeparatesOps [] (snapshot_example server).1 = true ∧
      sleepsFixed (snapshot_example server).1 = true := by
  simp only [snapshot_example, M.bind_eq_bind, M.emit_eq, M.bind_pair_ok,
    M.bind_pair_err, M.pure_eq, M.ok_eq, List.nil_append, List.cons_append]
  rw [start_sandbox_eq]
  rcases h1 : (httpCall server
      (startRequest (SandboxManager.mk BASE_URL).baseUrl "snapshot-example")).2 with e1 | r1
  · simp [h1, sleepSeparatesOps, opOnSandbox, sleepsFixed]
  · simp only [h1, M.bind_pair_ok, List.cons_append, List.nil_append]
    try dsimp only
    rw [run_cmd_eq]
    try dsimp only
    rcases h2 : (httpCall server (runCmdRequest BASE_URL "snapshot-example"
        "echo \x27test data before snapshot\x27 > /tmp/testfile")).2 with e2 | r2
    · simp [h2, sleepSeparatesOps, opOnSandbox, sleepsFixed]
    · simp only [h2, M.bind_pair_ok, List.cons_append, List.nil_append]
      rw [snapshot_eq]
      try dsimp only
      rcases h3 : (httpCall server
          (snapshotRequest BASE_URL "snapshot-example" "initial-state")).2 with e3 | r3
      · simp [h3, sleepSeparatesOps, opOnSandbox, sleepsFixed]
      · simp only [h3]
        rcases hid : jsonGetD r3.body "snapshot_id" Json.null with _ | b | nn | sid | xs | fs
        · simp [hid, sleepSeparatesOps, opOnSandbox, sleepsFixed]
        · simp [hid, sleepSeparatesOps, opOnSandbox, sleepsFixed]
        · simp [hid, sleepSeparatesOps, opOnSandbox, sleepsFixed]
        · simp only [hid, M.bind_pair_ok, List.cons_append, List.nil_append]
          rw [run_cmd_eq]
          try dsimp only
          rcases h4 : (httpCall server (runCmdRequest BASE_URL "snapshot-example"
              "echo \x27test data after snapshot\x27 > /tmp/testfile")).2 with e4 | r4
          · simp [h4, sleepSeparatesOps, opOnSandbox, sleepsFixed]
          · simp only [h4, M.bind_pair_ok, List.cons_append, List.nil_append]
            rw [run_cmd_eq]
            try dsimp only
            rcases h5 : (httpCall server
                (runCmdRequest BASE_URL "snapshot-example" "cat /tmp/testfile")).2 with e5 | r5
            · simp [h5, sleepSeparatesOps, opOnSandbox, sleepsFixed]
            · simp only [h5, M.bind_pair_ok, List.cons_append, List.nil_append]
              rw [destroy_eq]
              try dsimp only
              rcases h6 : (httpCall server
                  (destroyRequest BASE_URL "snapshot-example")).2 with e6 | r6
              · simp [h6, sleepSeparatesOps, opOnSandbox, sleepsFixed]
              · simp only [h6, M.bind_pair_ok, List.cons_append, List.nil_append]
                rw [restore_eq]
                try dsimp only
                rcases h7 : (httpCall server
                    (restoreRequest BASE_URL "snapshot-example" sid)).2 with e7 | r7
                · simp [h7, sleepSeparatesOps, opOnSandbox, sleepsFixed]
                · simp only [h7, M.bind_pair_ok, List.cons_append, List.nil_append]
                  try dsimp only
                  rw [run_cmd_eq]
                  try dsimp only
                  rcases h8 : (httpCall server
                      (runCmdRequest BASE_URL "snapshot-example" "cat /tmp/testfile")).2 with e8 | r8
                  · simp [h8, sleepSeparatesOps, opOnSandbox, sleepsFixed]
                  · simp only [h8, M.bind_pair_ok, List.cons_append, List.nil_append]
                    rw [pyIndex_eq r8.body "output"]
                    rcases h9 : (pyIndex r8.body "output").2 with e9 | outv
                    · simp [h9, sleepSeparatesOps, opOnSandbox, sleepsFixed]
                    · simp only [h9, M.bind_pair_ok, List.cons_append, List.nil_append]
                      cases hq : jsonEqStr outv "test data before snapshot\n" <;>
                        simp only [hq, Bool.false_eq_true, if_false, if_true] <;>
                        rw [destroy_eq] <;> try dsimp only
                      · rcases h10 : (httpCall server
                            (destroyRequest BASE_URL "snapshot-example")).2 with e10 | r10 <;>
                          simp [h10, sleepSeparatesOps, opOnSandbox, sleepsFixed]
                      · rcases h10 : (httpCall server
                            (destroyRequest BASE_URL "snapshot-example")).2 with e10 | r10 <;>
                          simp [h10, sleepSeparatesOps, opOnSandbox, sleepsFixed]
        · simp [hid, sleepSeparatesOps, opOnSandbox, sleepsFixed]
        · simp [hid, sleepSeparatesOps, opOnSandbox, sleepsFixed]

/-- C7: in every example function, whenever a sandbox is started via
`start_sandbox`, the fixed sleep is executed before any subsequent operation
(`list`, `run_cmd`, `snapshot`, `destroy`) on that sandbox, whatever the
server answers; every sleep in every trace is the fixed
`VM_START_WAIT_TIME_SECONDS = 3`, a constant duration rather than a readiness
check. -/
theorem examples_sleep_after_start :
    VM_START_WAIT_TIME_SECONDS = 3 ∧
    ∀ server : Server,
      (sleepSeparatesOps [] (basic_usage_example server).1 = true ∧
        sleepsFixed (basic_usage_example server).1 = true) ∧
      (sleepSeparatesOps [] (vm_management_example server).1 = true ∧
        sleepsFixed (vm_management_example server).1 = true) ∧
      (sleepSeparatesOps [] (snapshot_example server).1 = true ∧
        sleepsFixed (snapshot_example server).1 = true) ∧
      (sleepSeparatesOps [] (context_manager_example server).1 = true ∧
        sleepsFixed (context_manager_example server).1 = true) :=
  ⟨rfl, fun server =>
    ⟨basic_usage_sleep_discipline server, vm_management_sleep_discipline server,
      snapshot_sleep_discipline server, context_manager_sleep_discipline server⟩⟩

theorem restore_ok_handle_name (sm : SandboxManager) (server : Server)
    (name snapshotId : String) (sb : Sandbox)
    (h : (sm.restore server name snapshotId).2 = Except.ok sb) : sb.name = name := by
  rw [restore_eq] at h
  rcases h2 : (httpCall server (restoreRequest sm.baseUrl name snapshotId)).2 with e | r <;>
    simp only [h2] at h
  · exact absurd h (by simp)
  · rw [show sb = { baseUrl := sm.baseUrl, name := name } from (Except.ok.injEq _ _).mp h.symm]

theorem snapshot_example_restore_discipline (server : Server) (s : String)
    (h : server (snapshotRequest BASE_URL "snapshot-example" "initial-state") =
      ServerBehavior.respond { status := 200, body := Json.obj [("snapshot_id", Json.str s)] }) :
    restoreAfterDestroy "snapshot-example" s false (snapshot_example server).1 = true := by
  have hcv : (httpCall server (snapshotRequest BASE_URL "snapshot-example" "initial-state")).2 =
      Except.ok { status := 200, body := Json.obj [("snapshot_id", Json.str s)] } := by
    rw [httpCall_ok server _ _ h (by simp)]
  simp only [snapshot_example, M.bind_eq_bind, M.emit_eq, M.bind_pair_ok,
    M.bind_pair_err, M.pure_eq, M.ok_eq, List.nil_append, List.cons_append]
  rw [start_sandbox_eq]
  rcases h1 : (httpCall server
      (startRequest (SandboxManager.mk BASE_URL).baseUrl "snapshot-example")).2 with e1 | r1
  · simp [h1, restoreAfterDestroy]
  · simp only [h1, M.bind_pair_ok, List.cons_append, List.nil_append]
    try dsimp only
    rw [run_cmd_eq]
    try dsimp only
    rcases h2 : (httpCall server (runCmdRequest BASE_URL "snapshot-example"
        "echo \x27test data before snapshot\x27 > /tmp/testfile")).2 with e2 | r2
    · simp [h2, restoreAfterDestroy]
    · simp only [h2, M.bind_pair_ok, List.cons_append, List.nil_append]
      rw [snapshot_eq]
      try dsimp only
      simp only [hcv, jsonGetD, List.lookup, beq_self_eq_true, if_true]
      simp only [M.bind_pair_ok, List.cons_append, List.nil_append]
      rw [run_cmd_eq]
      try dsimp only
      rcases h4 : (httpCall server (runCmdRequest BASE_URL "snapshot-example"
          "echo \x27test data after snapshot\x27 > /tmp/testfile")).2 with e4 | r4
      · simp [h4, restoreAfterDestroy]
      · simp only [h4, M.bind_pair_ok, List.cons_append, List.nil_append]
        rw [run_cmd_eq]
        try dsimp only
        rcases h5 : (httpCall server
            (runCmdRequest BASE_URL "snapshot-example" "cat /tmp/testfile")).2 with e5 | r5
        · simp [h5, restoreAfterDestroy]
        · simp only [h5, M.bind_pair_ok, List.cons_append, List.nil_append]
          rw [destroy_eq]
          try dsimp only
          rcases h6 : (httpCall server
              (destroyRequest BASE_URL "snapshot-example")).2 with e6 | r6
          · simp [h6, restoreAfterDestroy]
          · simp only [h6, M.bind_pair_ok, List.cons_append, List.nil_append]
            rw [restore_eq]
            try dsimp only
            rcases h7 : (httpCall server
                (restoreRequest BASE_URL "snapshot-example" s)).2 with e7 | r7
            · simp [h7, restoreAfterDestroy]
            · simp only [h7, M.bind_pair_ok, List.cons_append, List.nil_append]
              try dsimp only
              rw [run_cmd_eq]
              try dsimp only
              rcases h8 : (httpCall server
                  (runCmdRequest BASE_URL "snapshot-example" "cat /tmp/testfile")).2 with e8 | r8
              · simp [h8, restoreAfterDestroy]
              · simp only [h8, M.bind_pair_ok, List.cons_append, List.nil_append]
                rw [pyIndex_eq r8.body "output"]
                rcases h9 : (pyIndex r8.body "output").2 with e9 | outv
                · simp [h9, restoreAfterDestroy]
                · simp only [h9, M.bind_pair_ok, List.cons_append, List.nil_append]
                  cases hq : jsonEqStr outv "test data before snapshot\n" <;>
                    simp only [hq, Bool.false_eq_true, if_false, if_true] <;>
                    rw [destroy_eq] <;> try dsimp only
                  · rcases h10 : (httpCall server
                        (destroyRequest BASE_URL "snapshot-example")).2 with e10 | r10 <;>
                      simp [h10, restoreAfterDestroy]
                  · rcases h10 : (httpCall server
                        (destroyRequest BASE_URL "snapshot-example")).2 with e10 | r10 <;>
                      simp [h10, restoreAfterDestroy]

/-- C8: in `snapshot_example`, every `restore` invocation carries exactly the
sandbox name used at start and the snapshot identifier the server returned
for `snapshot("initial-state")`, and it can only happen after `destroy()` was
invoked on the original sandbox; moreover `restore` returns a handle bound to
the requested name. -/
theorem snapshot_restore_uses_returned_id :
    (∀ (server : Server) (s : String),
        server (snapshotRequest BASE_URL "snapshot-example" "initial-state") =
          ServerBehavior.respond
            { status := 200, body := Json.obj [("snapshot_id", Json.str s)] } →
        restoreAfterDestroy "snapshot-example" s false (snapshot_example server).1 = true) ∧
    (∀ (sm : SandboxManager) (server : Server) (name snapshotId : String) (sb : Sandbox),
        (sm.restore server name snapshotId).2 = Except.ok sb → sb.name = name) :=
  ⟨fun server s h => snapshot_example_restore_discipline server s h,
   fun sm server name snapshotId sb h => restore_ok_handle_name sm server name snapshotId sb h⟩

theorem snapshot_restore_uses_returned_id_witness :
    restoreAfterDestroy "snapshot-example" "snap-1" false
        (snapshot_example
          (constServer 200 (Json.obj [("snapshot_id", Json.str "snap-1")]))).1 = true ∧
    ({ baseUrl := BASE_URL, name := "vm-a" } : Sandbox).name = "vm-a" :=
  ⟨snapshot_restore_uses_returned_id.1
      (constServer 200 (Json.obj [("snapshot_id", Json.str "snap-1")])) "snap-1" rfl,
   snapshot_restore_uses_returned_id.2 (SandboxManager.mk BASE_URL)
      (constServer 200 (Json.obj [("snapshot_id", Json.str "snap-1")])) "vm-a" "snap-1"
      { baseUrl := BASE_URL, name := "vm-a" } rfl⟩

/-- C1: for every body run inside a scoped (`with`) block on a sandbox handle,
`destroy()` is invoked on the handle exactly once on every exit path — whether
the body returns normally or raises — provided the body itself does not
invoke `destroy()` on that handle. -/
theorem scoped_block_destroys_exactly_once {α : Type} (server : Server) (sb : Sandbox)
    (body : Sandbox → M α)
    (h : destroyCount sb.name (body sb).1 = 0) :
    destroyCount sb.name (withSandbox server sb body).1 = 1 := by
  simp only [withSandbox]
  rw [destroy_eq]
  simp only []
  rw [destroyCount_append, h]
  simp [destroyCount]

theorem scoped_block_destroys_exactly_once_witness :
    destroyCount "w-vm" ((fun (_ : Sandbox) => (([], Except.ok ()) : M Unit))
        { baseUrl := BASE_URL, name := "w-vm" }).1 = 0 ∧
    destroyCount "w-vm"
      (withSandbox unreachableServer { baseUrl := BASE_URL, name := "w-vm" }
        (fun _ => (([], Except.ok ()) : M Unit))).1 = 1 :=
  ⟨rfl,
   scoped_block_destroys_exactly_once unreachableServer
     { baseUrl := BASE_URL, name := "w-vm" } (fun _ => ([], Except.ok ())) rfl⟩

theorem wrap_apiError_prints {α : Type} (func : M α) (resp : HttpResponse)
    (ed : Json) (msg : String)
    (hf : func.2 = Except.error (PyErr.apiError resp))
    (h1 : (pyIndex resp.body "error").2 = Except.ok ed)
    (h2 : (pyIndex ed "message").2 = Except.ok (Json.str msg)) :
    wrap_with_error_handling func =
      (func.1 ++ [Event.print (RED ++ "API Error: " ++ msg ++ RESET)], Except.ok none) := by
  simp only [wrap_with_error_handling, hf]
  rw [pyIndex_eq resp.body "error"]
  simp only [h1, M.bind_pair_ok, M.bind_pair_err, List.nil_append]
  rw [pyIndex_eq ed "message"]
  simp only [h2, M.bind_pair_ok, M.bind_pair_err, M.emit_eq, List.nil_append]
  simp [pyStr]

/-- C2: when a wrapped function raises the API-level error (a non-2xx
response) and the attached response body carries `error.message`, the handler
prints exactly the server-supplied message (between the fixed color codes)
and returns `None` without re-raising. -/
theorem wrap_prints_server_message {α : Type} (func : M α) (resp : HttpResponse)
    (ed : Json) (msg : String)
    (hf : func.2 = Except.error (PyErr.apiError resp))
    (h1 : (pyIndex resp.body "error").2 = Except.ok ed)
    (h2 : (pyIndex ed "message").2 = Except.ok (Json.str msg)) :
    wrap_with_error_handling func =
      (func.1 ++ [Event.print (RED ++ "API Error: " ++ msg ++ RESET)], Except.ok none) :=
  wrap_apiError_prints func resp ed msg hf h1 h2

theorem wrap_prints_server_message_witness :
    wrap_with_error_handling
        (([], Except.error (PyErr.apiError
          { status := 500,
            body := Json.obj [("error", Json.obj [("message", Json.str "boom")])] })) : M Unit) =
      (([] : List Event) ++ [Event.print (RED ++ "API Error: " ++ "boom" ++ RESET)],
        Except.ok none) :=
  wrap_prints_server_message
    (([], Except.error (PyErr.apiError
      { status := 500,
        body := Json.obj [("error", Json.obj [("message", Json.str "boom")])] })) : M Unit)
    { status := 500, body := Json.obj [("error", Json.obj [("message", Json.str "boom")])] }
    (Json.obj [("message", Json.str "boom")]) "boom" rfl rfl rfl

/-- C3: for every wrapped function that raises either of the two error kinds —
the connectivity failure, or the API-level failure whose response carries the
structured `error.message` — the wrapper catches the exception, prints a
colored diagnostic (every printed line opens with the red color code) and
returns `None` instead of re-raising, so the script continues. -/
theorem wrap_catches_both_error_kinds {α : Type} (func : M α)
    (h : (∃ m, func.2 = Except.error (PyErr.serviceUnavailable m)) ∨
         (∃ resp ed msg, func.2 = Except.error (PyErr.apiError resp) ∧
            (pyIndex resp.body "error").2 = Except.ok ed ∧
            (pyIndex ed "message").2 = Except.ok (Json.str msg))) :
    (wrap_with_error_handling func).2 = Except.ok none ∧
    ∃ msgs, msgs ≠ [] ∧
      (wrap_with_error_handling func).1 = func.1 ++ msgs.map Event.print ∧
      ∀ m ∈ msgs, ∃ t, m = RED ++ t := by
  rcases h with ⟨m, hf⟩ | ⟨resp, ed, msg, hf, h1, h2⟩
  · refine ⟨by simp [wrap_with_error_handling, hf], ?_⟩
    refine ⟨[RED ++ "Error: " ++ pyStrErr (PyErr.serviceUnavailable m) ++ RESET,
             RED ++ "Make sure the Arrakis server is running and accessible at "
               ++ BASE_URL ++ RESET], by simp, ?_, ?_⟩
    · simp [wrap_with_error_handling, hf]
    · intro x hx
      simp only [List.mem_cons, List.not_mem_nil, or_false] at hx
      rcases hx with hx | hx
      · exact ⟨"Error: " ++ pyStrErr (PyErr.serviceUnavailable m) ++ RESET, by
          rw [hx]; simp [String.append_assoc]⟩
      · exact ⟨"Make sure the Arrakis server is running and accessible at "
            ++ BASE_URL ++ RESET, by rw [hx]; simp [String.append_assoc]⟩
  · rw [wrap_apiError_prints func resp ed msg hf h1 h2]
    refine ⟨rfl, [RED ++ "API Error: " ++ msg ++ RESET], by simp, by simp, ?_⟩
    intro x hx
    simp only [List.mem_cons, List.not_mem_nil, or_false] at hx
    exact ⟨"API Error: " ++ msg ++ RESET, by rw [hx]; simp [String.append_assoc]⟩

theorem wrap_catches_both_error_kinds_witness :
    (wrap_with_error_handling
        (([], Except.error (PyErr.serviceUnavailable "no route to host")) : M Unit)).2 =
      Except.ok none ∧
    ∃ msgs, msgs ≠ [] ∧
      (wrap_with_error_handling
          (([], Except.error (PyErr.serviceUnavailable "no route to host")) : M Unit)).1 =
        ([] : List Event) ++ msgs.map Event.print ∧
      ∀ m ∈ msgs, ∃ t, m = RED ++ t :=
  wrap_catches_both_error_kinds
    (([], Except.error (PyErr.serviceUnavailable "no route to host")) : M Unit)
    (Or.inl ⟨"no route to host", rfl⟩)

/-- C9: `wrap_with_error_handling` passes through the wrapped function's value
when no exception is raised, and whenever it returns at all after the wrapped
function raised, the returned value is `None`; it never returns any other
value. -/
theorem wrap_returns_value_or_none {α : Type} (func : M α) :
    (∀ a, func.2 = Except.ok a → (wrap_with_error_handling func).2 = Except.ok (some a)) ∧
    (∀ r, (wrap_with_error_handling func).2 = Except.ok r →
       (∃ a, r = some a ∧ func.2 = Except.ok a) ∨
       (r = none ∧ ∃ e, func.2 = Except.error e)) := by
  constructor
  · intro a ha
    simp [wrap_with_error_handling, ha]
  · intro r hr
    rcases hf : func.2 with e | a
    · cases e with
      | apiError resp =>
        simp only [wrap_with_error_handling, hf] at hr
        split at hr
        · right
          simp only [Except.ok.injEq] at hr
          exact ⟨hr.symm, PyErr.apiError resp, rfl⟩
        · exact absurd hr (by simp)
      | serviceUnavailable m =>
        simp only [wrap_with_error_handling, hf, Except.ok.injEq] at hr
        exact Or.inr ⟨hr.symm, PyErr.serviceUnavailable m, rfl⟩
      | keyError k =>
        simp only [wrap_with_error_handling, hf, Except.ok.injEq] at hr
        exact Or.inr ⟨hr.symm, PyErr.keyError k, rfl⟩
      | typeError m =>
        simp only [wrap_with_error_handling, hf, Except.ok.injEq] at hr
        exact Or.inr ⟨hr.symm, PyErr.typeError m, rfl⟩
      | indexError =>
        simp only [wrap_with_error_handling, hf, Except.ok.injEq] at hr
        exact Or.inr ⟨hr.symm, PyErr.indexError, rfl⟩
    · simp only [wrap_with_error_handling, hf, Except.ok.injEq] at hr
      exact Or.inl ⟨a, hr.symm, rfl⟩

theorem vmNamesOf_map (names : List String) :
    vmNamesOf (names.map fun n => Json.obj [("name", Json.str n)]) = some names := by
  induction names with
  | nil => rfl
  | cons n ns ih => simp [vmNamesOf, List.lookup, ih]

theorem vmNames_vmListBody (names : List String) :
    vmNames (vmListBody names) = some names := by
  simp [vmNames, vmListBody, vmNamesOf_map]

theorem httpCall_error_kinds (server : Server) (req : HttpRequest) (e : PyErr)
    (h : (httpCall server req).2 = Except.error e) :
    (∃ m, e = PyErr.serviceUnavailable m) ∨ ∃ r, e = PyErr.apiError r := by
  rcases hs : server req with _ | r
  · rw [httpCall_unreachable server req hs] at h
    simp only [Except.error.injEq] at h
    exact Or.inl ⟨_, h.symm⟩
  · by_cases h2 : 200 ≤ r.status ∧ r.status < 300
    · rw [httpCall_ok server req r hs h2] at h
      exact absurd h (by simp)
    · rw [httpCall_err server req r hs h2] at h
      simp only [Except.error.injEq] at h
      exact Or.inr ⟨r, h.symm⟩

/-- C4: `list_all()` fails with the connectivity error when the server is
unreachable, fails with the API-level error carrying the server response on a
non-2xx answer, and succeeds on a well-formed 2xx listing — so those two
errors are exactly the failures a caller observes. -/
theorem list_all_error_kinds (sm : SandboxManager) (server : Server) :
    (server (listAllRequest sm.baseUrl) = ServerBehavior.unreachable →
      (sm.list_all server).2 =
        Except.error (PyErr.serviceUnavailable
          ("Failed to connect to " ++ (listAllRequest sm.baseUrl).url))) ∧
    (∀ r, server (listAllRequest sm.baseUrl) = ServerBehavior.respond r →
      ¬(200 ≤ r.status ∧ r.status < 300) →
      (sm.list_all server).2 = Except.error (PyErr.apiError r)) ∧
    (∀ names, server (listAllRequest sm.baseUrl) =
        ServerBehavior.respond { status := 200, body := vmListBody names } →
      (sm.list_all server).2 =
        Except.ok (names.map fun n => ({ baseUrl := sm.baseUrl, name := n } : Sandbox))) := by
  refine ⟨?_, ?_, ?_⟩
  · intro h
    rw [list_all_eq]
    simp [httpCall_unreachable server _ h]
  · intro r h h2
    rw [list_all_eq]
    simp [httpCall_err server _ r h h2]
  · intro names h
    rw [list_all_eq]
    simp [httpCall_ok server _ _ h (by simp), vmNames_vmListBody]

theorem list_all_error_kinds_witness :
    ((SandboxManager.mk BASE_URL).list_all unreachableServer).2 =
      Except.error (PyErr.serviceUnavailable
        ("Failed to connect to " ++ (listAllRequest BASE_URL).url)) ∧
    ((SandboxManager.mk BASE_URL).list_all
        (constServer 503 (Json.obj [("error",
          Json.obj [("message", Json.str "overloaded")])]))).2 =
      Except.error (PyErr.apiError
        { status := 503,
          body := Json.obj [("error", Json.obj [("message", Json.str "overloaded")])] }) ∧
    ((SandboxManager.mk BASE_URL).list_all (constServer 200 (vmListBody ["vm-1"]))).2 =
      Except.ok (["vm-1"].map fun n => ({ baseUrl := BASE_URL, name := n } : Sandbox)) :=
  ⟨(list_all_error_kinds (SandboxManager.mk BASE_URL) unreachableServer).1 rfl,
   (list_all_error_kinds (SandboxManager.mk BASE_URL)
      (constServer 503 (Json.obj [("error",
        Json.obj [("message", Json.str "overloaded")])]))).2.1
      { status := 503,
        body := Json.obj [("error", Json.obj [("message", Json.str "overloaded")])] }
      rfl (by simp),
   (list_all_error_kinds (SandboxManager.mk BASE_URL)
      (constServer 200 (vmListBody ["vm-1"]))).2.2 ["vm-1"] rfl⟩

/-- C5: when the server answers the listing request with a well-formed 2xx
body describing the existing VMs, `list_all()` returns one handle per VM
(empty exactly when none exist); `basic_usage_example` indexes `sandboxes[0]`
only in the non-empty branch, so it can never raise `IndexError`, and it
starts a new VM named `example-vm` exactly when the listing was empty. -/
theorem basic_usage_indexing_safe (server : Server) (names : List String)
    (h : server (listAllRequest BASE_URL) =
      ServerBehavior.respond { status := 200, body := vmListBody names }) :
    ((SandboxManager.mk BASE_URL).list_all server).2 =
      Except.ok (names.map fun n => ({ baseUrl := BASE_URL, name := n } : Sandbox)) ∧
    (callsStart "example-vm" (basic_usage_example server).1 = true ↔ names = []) ∧
    (basic_usage_example server).2 ≠ Except.error PyErr.indexError := by
  have hcv : (httpCall server (listAllRequest BASE_URL)).2 =
      Except.ok { status := 200, body := vmListBody names } := by
    rw [httpCall_ok server _ _ h (by simp)]
  refine ⟨?_, ?_⟩
  · rw [list_all_eq]
    simp [hcv, vmNames_vmListBody]
  · simp only [basic_usage_example, M.bind_eq_bind, M.emit_eq, M.bind_pair_ok,
      M.bind_pair_err, M.pure_eq, M.ok_eq, List.nil_append, List.cons_append]
    rw [list_all_eq]
    try dsimp only
    simp only [hcv, vmNames_vmListBody, M.bind_pair_ok, List.cons_append, List.nil_append]
    rcases names with _ | ⟨n, ns⟩
    · simp only [List.map_nil, List.isEmpty_nil, if_true]
      rw [start_sandbox_eq]
      try dsimp only
      rcases hs : (httpCall server (startRequest BASE_URL "example-vm")).2 with e2 | r2
      · simp only [hs, M.bind_pair_err, M.bind_pair_ok, List.cons_append, List.nil_append]
        constructor
        · simp [callsStart, printSandboxNames]
        · rcases httpCall_error_kinds server _ e2 hs with ⟨m, rfl⟩ | ⟨r, rfl⟩ <;>
            simp [printSandboxNames]
      · simp only [hs, M.bind_pair_err, M.bind_pair_ok, List.cons_append, List.nil_append]
        constructor
        · simp [callsStart, printSandboxNames]
        · simp [printSandboxNames]
    · constructor
      · simp [callsStart, callsStart_append, printSandboxNames, printSandboxNames_snd, pyHead,
          callsStart_prints _ _ (printSandboxNames_onlyPrints _)]
      · simp [pyHead, printSandboxNames, printSandboxNames_snd]

theorem basic_usage_indexing_safe_witness :
    ((SandboxManager.mk BASE_URL).list_all (constServer 200 (vmListBody []))).2 =
      Except.ok (([] : List String).map
        fun n => ({ baseUrl := BASE_URL, name := n } : Sandbox)) ∧
    (callsStart "example-vm"
        (basic_usage_example (constServer 200 (vmListBody []))).1 = true ↔
      ([] : List String) = []) ∧
    (basic_usage_example (constServer 200 (vmListBody []))).2 ≠
      Except.error PyErr.indexError :=
  basic_usage_indexing_safe (constServer 200 (vmListBody [])) [] rfl

/-- C6: every wrapper method issues exactly one HTTP request, with the
expected method, URL and body for its inputs; a non-2xx response makes the
method raise the API-level error carrying that response, and on a 2xx
response the handle accessors return the parsed JSON body. -/
theorem wrapper_methods_single_request (server : Server) (sm : SandboxManager)
    (sb : Sandbox) (name snapshotId cmd tag : String) :
    ((sm.list_all server).1.filter isHttpEvent =
      [Event.http
          { method := HttpMethod.GET, url := sm.baseUrl ++ "/v1/vms", body := none }]) ∧
    ((sm.start_sandbox server name).1.filter isHttpEvent =
      [Event.http
          { method := HttpMethod.POST, url := sm.baseUrl ++ "/v1/vms",
            body := some (Json.obj [("name", Json.str name)]) }]) ∧
    ((sm.restore server name snapshotId).1.filter isHttpEvent =
      [Event.http
          { method := HttpMethod.POST,
            url := sm.baseUrl ++ "/v1/vms/" ++ name ++ "/restore",
            body := some (Json.obj [("snapshot_id", Json.str snapshotId)]) }]) ∧
    ((sb.list server).1.filter isHttpEvent =
      [Event.http
          { method := HttpMethod.GET, url := sb.baseUrl ++ "/v1/vms/" ++ sb.name,
            body := none }]) ∧
    (( sb.run_cmd server cmd).1.filter isHttpEvent =
      [Event.http
          { method := HttpMethod.POST,
            url := sb.baseUrl ++ "/v1/vms/" ++ sb.name ++ "/cmd",
            body := some (Json.obj [("cmd", Json.str cmd)]) }]) ∧
    ((sb.snapshot server tag).1.filter isHttpEvent =
      [Event.http
          { method := HttpMethod.POST,
            url := sb.baseUrl ++ "/v1/vms/" ++ sb.name ++ "/snapshots",
            body := some (Json.obj [("tag", Json.str tag)]) }]) ∧
    ((sb.destroy server).1.filter isHttpEvent =
      [Event.http
          { method := HttpMethod.DELETE, url := sb.baseUrl ++ "/v1/vms/" ++ sb.name,
            body := none }]) ∧
    (∀ r, server (listAllRequest sm.baseUrl) = ServerBehavior.respond r →
      ¬(200 ≤ r.status ∧ r.status < 300) →
      (sm.list_all server).2 = Except.error (PyErr.apiError r)) ∧
    (∀ r, server (startRequest sm.baseUrl name) = ServerBehavior.respond r →
      ¬(200 ≤ r.status ∧ r.status < 300) →
      (sm.start_sandbox server name).2 = Except.error (PyErr.apiError r)) ∧
    (∀ r, server (restoreRequest sm.baseUrl name snapshotId) = ServerBehavior.respond r →
      ¬(200 ≤ r.status ∧ r.status < 300) →
      (sm.restore server name snapshotId).2 = Except.error (PyErr.apiError r)) ∧
    (∀ r, server (listVmRequest sb.baseUrl sb.name) = ServerBehavior.respond r →
      ¬(200 ≤ r.status ∧ r.status < 300) →
      (sb.list server).2 = Except.error (PyErr.apiError r)) ∧
    (∀ r, server (runCmdRequest sb.baseUrl sb.name cmd) = ServerBehavior.respond r →
      ¬(200 ≤ r.status ∧ r.status < 300) →
      ( sb.run_cmd server cmd).2 = Except.error (PyErr.apiError r)) ∧
    (∀ r, server (snapshotRequest sb.baseUrl sb.name tag) = ServerBehavior.respond r →
      ¬(200 ≤ r.status ∧ r.status < 300) →
      (sb.snapshot server tag).2 = Except.error (PyErr.apiError r)) ∧
    (∀ r, server (destroyRequest sb.baseUrl sb.name) = ServerBehavior.respond r →
      ¬(200 ≤ r.status ∧ r.status < 300) →
      (sb.destroy server).2 = Except.error (PyErr.apiError r)) ∧
    (∀ r, server (listVmRequest sb.baseUrl sb.name) = ServerBehavior.respond r →
      200 ≤ r.status ∧ r.status < 300 → (sb.list server).2 = Except.ok r.body) ∧
    (∀ r, server (runCmdRequest sb.baseUrl sb.name cmd) = ServerBehavior.respond r →
      200 ≤ r.status ∧ r.status < 300 → ( sb.run_cmd server cmd).2 = Except.ok r.body) := by
  refine ⟨?_, ?_, ?_, ?_, ?_, ?_, ?_, ?_, ?_, ?_, ?_, ?_, ?_, ?_, ?_, ?_⟩
  · rw [list_all_eq]
    simp [List.filter, isHttpEvent, listAllRequest]
  · rw [start_sandbox_eq]
    simp [List.filter, isHttpEvent, startRequest]
  · rw [restore_eq]
    simp [List.filter, isHttpEvent, restoreRequest]
  · rw [sandbox_list_eq]
    simp [List.filter, isHttpEvent, listVmRequest]
  · rw [run_cmd_eq]
    simp [List.filter, isHttpEvent, runCmdRequest]
  · rw [snapshot_eq]
    simp [List.filter, isHttpEvent, snapshotRequest]
  · rw [destroy_eq]
    simp [List.filter, isHttpEvent, destroyRequest]
  · intro r h h2
    rw [list_all_eq]
    simp [httpCall_err server _ r h h2]
  · intro r h h2
    rw [start_sandbox_eq]
    simp [httpCall_err server _ r h h2]
  · intro r h h2
    rw [restore_eq]
    simp [httpCall_err server _ r h h2]
  · intro r h h2
    rw [sandbox_list_eq]
    simp [httpCall_err server _ r h h2]
  · intro r h h2
    rw [run_cmd_eq]
    simp [httpCall_err server _ r h h2]
  · intro r h h2
    rw [snapshot_eq]
    simp [httpCall_err server _ r h h2]
  · intro r h h2
    rw [destroy_eq]
    simp [httpCall_err server _ r h h2]
  · intro r h h2
    rw [sandbox_list_eq]
    simp [httpCall_ok server _ r h h2]
  · intro r h h2
    rw [run_cmd_eq]
    simp [httpCall_ok server _ r h h2]

theorem wrapper_methods_single_request_witness :
    ((SandboxManager.mk BASE_URL).list_all (constServer 418 (Json.obj []))).2 =
      Except.error (PyErr.apiError { status := 418, body := Json.obj [] }) ∧
    ((SandboxManager.mk BASE_URL).start_sandbox (constServer 418 (Json.obj [])) "vm-b").2 =
      Except.error (PyErr.apiError { status := 418, body := Json.obj [] }) ∧
    ((SandboxManager.mk BASE_URL).restore (constServer 418 (Json.obj [])) "vm-b" "snap-1").2 =
      Except.error (PyErr.apiError { status := 418, body := Json.obj [] }) ∧
    (Sandbox.list { baseUrl := BASE_URL, name := "vm-a" } (constServer 418 (Json.obj []))).2 =
      Except.error (PyErr.apiError { status := 418, body := Json.obj [] }) ∧
    ( Sandbox.run_cmd { baseUrl := BASE_URL, name := "vm-a" }
        (constServer 418 (Json.obj [])) "true").2 =
      Except.error (PyErr.apiError { status := 418, body := Json.obj [] }) ∧
    (Sandbox.snapshot { baseUrl := BASE_URL, name := "vm-a" }
        (constServer 418 (Json.obj [])) "t").2 =
      Except.error (PyErr.apiError { status := 418, body := Json.obj [] }) ∧
    (Sandbox.destroy { baseUrl := BASE_URL, name := "vm-a" }
        (constServer 418 (Json.obj []))).2 =
      Except.error (PyErr.apiError { status := 418, body := Json.obj [] }) ∧
    (Sandbox.list { baseUrl := BASE_URL, name := "vm-a" }
        (constServer 200 (Json.obj [("output", Json.str "hi")]))).2 =
      Except.ok (Json.obj [("output", Json.str "hi")]) ∧
    ( Sandbox.run_cmd { baseUrl := BASE_URL, name := "vm-a" }
        (constServer 200 (Json.obj [("output", Json.str "hi")])) "true").2 =
      Except.ok (Json.obj [("output", Json.str "hi")]) := by
  obtain ⟨f1, f2, f3, f4, f5, f6, f7, e1, e2, e3, e4, e5, e6, e7, k1, k2⟩ :=
    wrapper_methods_single_request (constServer 418 (Json.obj []))
      (SandboxManager.mk BASE_URL) { baseUrl := BASE_URL, name := "vm-a" }
      "vm-b" "snap-1" "true" "t"
  obtain ⟨g1, g2, g3, g4, g5, g6, g7, d1, d2, d3, d4, d5, d6, d7, m1, m2⟩ :=
    wrapper_methods_single_request (constServer 200 (Json.obj [("output", Json.str "hi")]))
      (SandboxManager.mk BASE_URL) { baseUrl := BASE_URL, name := "vm-a" }
      "vm-b" "snap-1" "true" "t"
  exact ⟨e1 _ rfl (by simp), e2 _ rfl (by simp), e3 _ rfl (by simp), e4 _ rfl (by simp),
    e5 _ rfl (by simp), e6 _ rfl (by simp), e7 _ rfl (by simp),
    m1 _ rfl (by simp), m2 _ rfl (by simp)⟩

theorem wrap_returns_value_or_none_witness :
    (wrap_with_error_handling (([], Except.ok (3 : Nat)) : M Nat)).2 =
      Except.ok (some 3) ∧
    ((∃ a, (none : Option Nat) = some a ∧
        (([], Except.error PyErr.indexError) : M Nat).2 = Except.ok a) ∨
      ((none : Option Nat) = none ∧
        ∃ e, (([], Except.error PyErr.indexError) : M Nat).2 = Except.error e)) :=
  ⟨(wrap_returns_value_or_none (([], Except.ok (3 : Nat)) : M Nat)).1 3 rfl,
   (wrap_returns_value_or_none (([], Except.error PyErr.indexError) : M Nat)).2 none rfl⟩
